import Mathlib

/-!
Verification of the parameter resolution and validation pipeline of
`penn_chime/parameters.py`: the CLI schema, the flag-level `validator`
closure, the layered CLI/file argument parsing of `Parameters.create`,
the `ACCEPTED_PARAMETERS` field schema, and `Parameters.__init__`.

Python values flowing through the pipeline (ints, floats, strings,
dates, `None`, and `Disposition` namedtuples) are embedded as the
inductive `Value`; floats are modelled as exact rationals in lowest
terms (`PyFloat`), which is exact for the decimal literals the pipeline
parses and compares.
-/

namespace PennChime

/-! Exact rationals in lowest terms with a positive denominator,
modelling the float values the pipeline handles. -/

def gcdFuel : Nat → Nat → Nat → Nat
  | 0, m, n => m + n
  | fuel + 1, m, n => if m = 0 then n else gcdFuel fuel (n % m) m

def natGcd (m n : Nat) : Nat := gcdFuel (m + n + 1) m n

structure PyFloat where
  num : Int
  den : Nat
  deriving DecidableEq

/-- Build the reduced fraction `n / d` (for `d > 0`). -/
def PyFloat.normalize (n : Int) (d : Nat) : PyFloat :=
  let g := natGcd n.natAbs d
  if g = 0 then ⟨0, 1⟩ else ⟨n / (g : Int), d / g⟩

def PyFloat.neg (q : PyFloat) : PyFloat := ⟨-q.num, q.den⟩

/-- Exact comparison `a < b` of fractions with positive denominators. -/
def PyFloat.ltB (a b : PyFloat) : Bool :=
  a.num * (b.den : Int) < b.num * (a.den : Int)

/-! Dates, embedding `datetime.date`. -/

structure PyDate where
  year : Nat
  month : Nat
  day : Nat
  deriving DecidableEq

/-- Embedding of the dynamically typed Python values the pipeline passes
around: `int`, `float` (as an exact rational), `str`, `datetime.date`,
`None`, and the `Disposition` namedtuple with its `days`/`rate` fields. -/
inductive Value where
  | vInt (n : Int)
  | vFloat (q : PyFloat)
  | vStr (s : String)
  | vDate (d : PyDate)
  | vNone
  | vDisp (days rate : Value)
  deriving DecidableEq

deriving instance DecidableEq for Except

def Value.toFloat? : Value → Option PyFloat
  | .vInt n => some ⟨n, 1⟩
  | .vFloat q => some q
  | _ => none

def Value.isDate : Value → Bool
  | .vDate _ => true
  | _ => false

def Value.dispDays : Value → Value
  | .vDisp d _ => d
  | _ => .vNone

def Value.dispRate : Value → Value
  | .vDisp _ r => r
  | _ => .vNone

/-- Python cross-type numeric comparison `a < b`, defined on the numeric
values; all bounds in the CLI schema are numeric, so this is the only
case the pipeline exercises. -/
def Value.ltB (a b : Value) : Bool :=
  match a.toFloat?, b.toFloat? with
  | some x, some y => PyFloat.ltB x y
  | _, _ => false

/-! Numeric and date parsing, embedding the cast functions `int`,
`float` and `cast_date` on the string forms the pipeline consumes
(optionally signed decimal numerals, and `%Y-%m-%d` dates). -/

def natOfDigits (cs : List Char) : Nat :=
  cs.foldl (fun n c => n * 10 + (c.toNat - 48)) 0

def parseNatDigits (cs : List Char) : Option Nat :=
  if cs = [] then none
  else if cs.all Char.isDigit then some (natOfDigits cs) else none

def parseInt (s : String) : Option Int :=
  match s.data with
  | '-' :: rest => (parseNatDigits rest).map (fun n => -(n : Int))
  | '+' :: rest => (parseNatDigits rest).map (fun n => (n : Int))
  | cs => (parseNatDigits cs).map (fun n => (n : Int))

def parseUnsignedFloat (cs : List Char) : Option PyFloat :=
  match cs.span (fun c => c != '.') with
  | (intPart, []) => (parseNatDigits intPart).map (fun n => PyFloat.normalize (n : Int) 1)
  | (intPart, _ :: fracPart) =>
    if intPart = [] ∧ fracPart = [] then none
    else if intPart.all Char.isDigit ∧ fracPart.all Char.isDigit
        ∧ fracPart.all (fun c => c != '.') then
      some (PyFloat.normalize (natOfDigits (intPart ++ fracPart) : Int) (10 ^ fracPart.length))
    else none

def parseFloat (s : String) : Option PyFloat :=
  match s.data with
  | '-' :: rest => (parseUnsignedFloat rest).map PyFloat.neg
  | '+' :: rest => parseUnsignedFloat rest
  | cs => parseUnsignedFloat cs

def isLeapYear (y : Nat) : Bool :=
  (y % 4 == 0 && y % 100 != 0) || y % 400 == 0

def daysInMonth (y m : Nat) : Nat :=
  if m = 2 then (if isLeapYear y then 29 else 28)
  else if m = 4 ∨ m = 6 ∨ m = 9 ∨ m = 11 then 30
  else 31

def splitOnChar (sep : Char) : List Char → List (List Char)
  | [] => [[]]
  | c :: rest =>
    match splitOnChar sep rest with
    | [] => if c = sep then [[], []] else [[c]]
    | h :: t => if c = sep then [] :: h :: t else (c :: h) :: t

/-- Embedding of `cast_date`: `datetime.strptime(string, "%Y-%m-%d").date()`,
with the field-width and calendar-validity checks strptime performs. -/
def parseDate (s : String) : Option PyDate :=
  match splitOnChar '-' s.data with
  | [ys, ms, ds] =>
    match parseNatDigits ys, parseNatDigits ms, parseNatDigits ds with
    | some y, some m, some d =>
      if 1 ≤ y ∧ y ≤ 9999 ∧ ys.length ≤ 4 ∧ ms.length ≤ 2 ∧ ds.length ≤ 2
          ∧ 1 ≤ m ∧ m ≤ 12 ∧ 1 ≤ d ∧ d ≤ daysInMonth y m then
        some ⟨y, m, d⟩
      else none
    | _, _, _ => none
  | _ => none

/-! Whitespace tokenization, embedding Python `str.split()` as used on a
parameters file's contents. -/

def splitWsAux : List Char → List Char → List (List Char)
  | [], acc => if acc.isEmpty then [] else [acc.reverse]
  | c :: rest, acc =>
    if c.isWhitespace then
      if acc.isEmpty then splitWsAux rest [] else acc.reverse :: splitWsAux rest []
    else splitWsAux rest (c :: acc)

def tokenize (s : String) : List String :=
  (splitWsAux s.data []).map List.asString

/-- Rendering of a value into an error message, abstracting Python
f-string formatting of the bound literals. -/
def pyShow : Value → String
  | .vInt n => toString n
  | .vFloat q => if q.den = 1 then toString q.num else toString q.num ++ "/" ++ toString q.den
  | .vStr s => s
  | .vDate d => toString d.year ++ "-" ++ toString d.month ++ "-" ++ toString d.day
  | .vNone => "None"
  | .vDisp _ _ => "Disposition"

def pyShowOpt : Option Value → String
  | some v => pyShow v
  | none => "None"

/-! Validators. The module `validators.py` is imported by
`parameters.py` but is not among the sources. -/

/-- Modelled from the spec: `validators.py` is missing from the sources;
§4.1 gives `Positive` the contract value ≥ 0, failing otherwise with an
error naming the offending key. A non-numeric value (including `None`)
is not ≥ 0 and fails. -/
def Positive (key : String) (value : Value) : Except String Unit :=
  match value.toFloat? with
  | some q => if q.ltB ⟨0, 1⟩ then .error (key ++ " must be greater than or equal to 0.") else .ok ()
  | none => .error (key ++ " must be greater than or equal to 0.")

/-- Modelled from the spec: §4.1, `StrictlyPositive` requires value > 0. -/
def StrictlyPositive (key : String) (value : Value) : Except String Unit :=
  match value.toFloat? with
  | some q => if PyFloat.ltB ⟨0, 1⟩ q then .ok () else .error (key ++ " must be greater than 0.")
  | none => .error (key ++ " must be greater than 0.")

/-- Modelled from the spec: §4.1, `OptionalStrictlyPositive` accepts
`None` and otherwise behaves as `StrictlyPositive`. -/
def OptionalStrictlyPositive (key : String) (value : Value) : Except String Unit :=
  match value with
  | .vNone => .ok ()
  | v => StrictlyPositive key v

/-- Modelled from the spec: §4.1, `Rate` requires 0 ≤ value ≤ 1. -/
def Rate (key : String) (value : Value) : Except String Unit :=
  match value.toFloat? with
  | some q =>
    if q.ltB ⟨0, 1⟩ || PyFloat.ltB ⟨1, 1⟩ q then
      .error (key ++ " must be a rate between 0 and 1.")
    else .ok ()
  | none => .error (key ++ " must be a rate between 0 and 1.")

/-- Modelled from the spec: §4.1, `Date` requires a valid calendar date
object. -/
def Date (key : String) (value : Value) : Except String Unit :=
  match value with
  | .vDate _ => .ok ()
  | _ => .error (key ++ " must be a date.")

/-- Modelled from the spec: §4.1, `OptionalDate` accepts `None` and
otherwise behaves as `Date`. -/
def OptionalDate (key : String) (value : Value) : Except String Unit :=
  match value with
  | .vNone => .ok ()
  | v => Date key v

/-- Modelled from the spec: §4.1, `OptionalValue` accepts any value. -/
def OptionalValue (_key : String) (_value : Value) : Except String Unit :=
  .ok ()

/-- Modelled from the spec: §4.1, `ValDisposition` accepts a
`Disposition`-shaped value. -/
def ValDisposition (key : String) (value : Value) : Except String Unit :=
  match value with
  | .vDisp _ _ => .ok ()
  | _ => .error (key ++ " must be a disposition.")

/-- Embedding of `Disposition.create`: validate `days` as `Positive` and
`rate` as `Rate` (in that order), then build the namedtuple. -/
def Disposition.create (days rate : Value) : Except String Value :=
  match Positive "days" days with
  | .error e => .error e
  | .ok _ =>
    match Rate "rate" rate with
    | .error e => .error e
    | .ok _ => .ok (.vDisp days rate)

/-! CLI schema and the argument parser, embedding `cli_args`, `to_cli`,
`validator` and `Parameters.parser`/`parse_args`. -/

/-- Cast functions appearing in the CLI schema tuples: `int`, `float`,
`cast_date` and `str`. -/
inductive Cast where
  | cint
  | cfloat
  | cdate
  | cstr
  deriving DecidableEq

def Cast.run : Cast → String → Except String Value
  | .cint, s =>
    match parseInt s with
    | some n => .ok (.vInt n)
    | none => .error ("invalid int value: " ++ s)
  | .cfloat, s =>
    match parseFloat s with
    | some q => .ok (.vFloat q)
    | none => .error ("invalid float value: " ++ s)
  | .cdate, s =>
    match parseDate s with
    | some d => .ok (.vDate d)
    | none => .error ("invalid date value: " ++ s)
  | .cstr, s => .ok (.vStr s)

/-- The argparse destinations of the 19 registered flags (flag names
with hyphens mapped back to underscores). -/
inductive Flag where
  | parameters
  | current_hospitalized
  | current_date
  | date_first_hospitalized
  | doubling_time
  | hospitalized_days
  | hospitalized_rate
  | icu_days
  | icu_rate
  | market_share
  | infectious_days
  | mitigation_date
  | max_y_axis
  | n_days
  | recovered
  | relative_contact_rate
  | population
  | ventilated_days
  | ventilated_rate
  deriving DecidableEq

def violatesMin : Option Value → Value → Bool
  | some m, v => Value.ltB v m
  | none, _ => false

def violatesMax : Option Value → Value → Bool
  | some m, v => Value.ltB m v
  | none, _ => false

/-- Embedding of the closure returned by `validator(arg, cast,
min_value, max_value, required)`: an empty string on a non-str-typed
flag is `None` (or a required-flag error); otherwise the string is cast
and checked against the declared bounds. -/
def validator (arg : String) (cast : Cast) (minValue maxValue : Option Value)
    (required : Bool) (string : String) : Except String Value :=
  if string = "" ∧ cast ≠ Cast.cstr then
    if required then .error (arg ++ " is required.") else .ok .vNone
  else
    match cast.run string with
    | .error e => .error e
    | .ok value =>
      if violatesMin minValue value then
        .error (arg ++ " must be greater than " ++ pyShowOpt minValue ++ ".")
      else if violatesMax maxValue value then
        .error (arg ++ " must be less than " ++ pyShowOpt maxValue ++ ".")
      else .ok value

/-- One 6-tuple of `cli_args`, together with the argparse destination
derived from its name. -/
structure CliArg where
  name : String
  cast : Cast
  minValue : Option Value
  maxValue : Option Value
  help : Option String
  required : Bool
  flag : Flag
  deriving DecidableEq

/-- Embedding of `cli_args()`: the ordered table of command-line flags,
with names, casts, bounds, help strings and required markers exactly as
in the source. -/
def cli_args : List CliArg := [
  ⟨"parameters", .cstr, none, none, some "Parameters file.", false, .parameters⟩,
  ⟨"current_hospitalized", .cint, some (.vInt 0), none,
    some "Currently hospitalized COVID-19 patients (>= 0)", true, .current_hospitalized⟩,
  ⟨"current_date", .cdate, none, none,
    some "Current date (default is today)", false, .current_date⟩,
  ⟨"date_first_hospitalized", .cdate, none, none,
    some "Date of first hospitalization", false, .date_first_hospitalized⟩,
  ⟨"doubling_time", .cfloat, some (.vFloat ⟨0, 1⟩), none,
    some "Doubling time before social distancing (days)", true, .doubling_time⟩,
  ⟨"hospitalized_days", .cint, some (.vInt 0), none,
    some "Average hospital length of stay (in days)", true, .hospitalized_days⟩,
  ⟨"hospitalized_rate", .cfloat, some (.vFloat ⟨1, 100000⟩), some (.vFloat ⟨1, 1⟩),
    some "Hospitalized Rate: 0.00001 - 1.0", true, .hospitalized_rate⟩,
  ⟨"icu_days", .cint, some (.vInt 0), none,
    some "Average days in ICU", true, .icu_days⟩,
  ⟨"icu_rate", .cfloat, some (.vFloat ⟨0, 1⟩), some (.vFloat ⟨1, 1⟩),
    some "ICU rate: 0.0 - 1.0", true, .icu_rate⟩,
  ⟨"market_share", .cfloat, some (.vFloat ⟨1, 100000⟩), some (.vFloat ⟨1, 1⟩),
    some "Hospital market share (0.00001 - 1.0)", true, .market_share⟩,
  ⟨"infectious_days", .cint, some (.vFloat ⟨0, 1⟩), none,
    some "Infectious days", true, .infectious_days⟩,
  ⟨"mitigation_date", .cdate, none, none,
    some "Mitigation date for social distancing.", false, .mitigation_date⟩,
  ⟨"max_y_axis", .cint, some (.vInt 0), none,
    some "Maximum y axis", true, .max_y_axis⟩,
  ⟨"n-days", .cint, some (.vInt 0), none,
    some "Number of days to project >= 0", true, .n_days⟩,
  ⟨"recovered", .cint, some (.vInt 0), none,
    some "Initial recovered >= 0", true, .recovered⟩,
  ⟨"relative-contact-rate", .cfloat, some (.vFloat ⟨0, 1⟩), some (.vFloat ⟨1, 1⟩),
    some "Social distancing reduction rate: 0.0 - 1.0", true, .relative_contact_rate⟩,
  ⟨"population", .cint, some (.vInt 1), none,
    some "Regional population >= 1", true, .population⟩,
  ⟨"ventilated_days", .cint, some (.vInt 0), none,
    some "Average days on ventilator", true, .ventilated_days⟩,
  ⟨"ventilated_rate", .cfloat, some (.vFloat ⟨0, 1⟩), some (.vFloat ⟨1, 1⟩),
    some "Ventilated Rate: 0.0 - 1.0", true, .ventilated_rate⟩]

/-- Embedding of `to_cli`: `"--" + name.replace("_", "-")`. -/
def to_cli (name : String) : String :=
  "--" ++ List.asString (name.data.map (fun c => if c = '_' then '-' else c))

/-- The argparse namespace: every registered destination holds a value,
`None` when the flag has not been supplied. -/
def Namespace := Flag → Value

def emptyNs : Namespace := fun _ => .vNone

def findEntry (t : String) : Option CliArg :=
  cli_args.find? (fun e => to_cli e.name == t)

def runCli (e : CliArg) (s : String) : Except String Value :=
  validator (to_cli e.name) e.cast e.minValue e.maxValue e.required s

/-- Embedding of `parser.parse_args(tokens, namespace)`: consume
`--flag value` pairs in order, run each flag's `validator` closure on
the raw string, and store the result into the namespace (later
occurrences overwrite earlier ones). -/
def parseArgs : List String → Namespace → Except String Namespace
  | [], ns => .ok ns
  | [t], _ =>
    match findEntry t with
    | none => .error ("unrecognized arguments: " ++ t)
    | some e => .error ("argument " ++ to_cli e.name ++ ": expected one argument")
  | t :: v :: rest, ns =>
    match findEntry t with
    | none => .error ("unrecognized arguments: " ++ t)
    | some e =>
      match runCli e v with
      | .error msg => .error ("argument " ++ to_cli e.name ++ ": " ++ msg)
      | .ok val => parseArgs rest (Function.update ns e.flag val)

/-- Whether a token list supplies a given flag, following the pairwise
consumption of `parseArgs`. -/
def mentions : List String → Flag → Bool
  | [], _ => false
  | [_], _ => false
  | t :: _ :: rest, f =>
    (match findEntry t with
     | some e => e.flag == f
     | none => false) || mentions rest f

/-- Embedding of the file-path fallback in `Parameters.create`: the
`--parameters` flag if given, else the `PARAMETERS` environment entry. -/
def resolvedPath (env : Option String) (a : Namespace) : Option String :=
  match a Flag.parameters with
  | .vStr s => some s
  | _ => env

/-- Steps 1-4 of `Parameters.create`: parse argv, resolve an optional
parameters file path, and re-parse the file's whitespace-split tokens
into the same namespace. -/
def resolveNamespace (env : Option String) (files : String → Option String)
    (argv : List String) : Except String Namespace :=
  match parseArgs argv emptyNs with
  | .error e => .error e
  | .ok a =>
    match resolvedPath env a with
    | none => .ok a
    | some path =>
      match files path with
      | none => .error ("No such file or directory: " ++ path)
      | some contents => parseArgs (tokenize contents) a

def nsOf : Except String Namespace → Namespace
  | .ok a => a
  | .error _ => emptyNs

/-- The merged namespace `Parameters.create` builds its keyword set
from. -/
def mergedNamespace (env : Option String) (files : String → Option String)
    (argv : List String) : Namespace :=
  nsOf (resolveNamespace env files argv)

/-! Field schema and `Parameters.__init__`. -/

/-- The 16 attributes `Parameters.__init__` initializes and the schema
recognizes. -/
inductive PKey where
  | current_hospitalized
  | current_date
  | date_first_hospitalized
  | doubling_time
  | infectious_days
  | mitigation_date
  | market_share
  | max_y_axis
  | n_days
  | population
  | recovered
  | region
  | relative_contact_rate
  | ventilated
  | hospitalized
  | icu
  deriving DecidableEq

/-- Embedding of `ACCEPTED_PARAMETERS`: parameter name to (validator,
cast function, help text), in source order. -/
def ACCEPTED_PARAMETERS :
    List (String × ((String → Value → Except String Unit) × Option Cast × Option String)) := [
  ("current_hospitalized", (Positive, some .cint, some "Currently hospitalized COVID-19 patients (>= 0)")),
  ("current_date", (OptionalDate, some .cdate, some "Date on which the forecast should be based")),
  ("date_first_hospitalized", (OptionalDate, some .cdate, some "Date the first patient was hospitalized")),
  ("doubling_time", (OptionalStrictlyPositive, some .cfloat, some "Doubling time before social distancing (days)")),
  ("infectious_days", (StrictlyPositive, some .cint, some "Infectious days")),
  ("mitigation_date", (OptionalDate, some .cdate, some "Date on which social distancing measures too effect")),
  ("market_share", (Rate, some .cfloat, some "Hospital market share (0.00001 - 1.0)")),
  ("max_y_axis", (OptionalStrictlyPositive, some .cint, none)),
  ("n_days", (StrictlyPositive, some .cint, some "Number of days to project >= 0")),
  ("population", (OptionalStrictlyPositive, some .cint, some "Regional population >= 1")),
  ("recovered", (Positive, some .cint, some "Number of patients already recovered (not yet implemented)")),
  ("region", (OptionalValue, none, some "No help available")),
  ("relative_contact_rate", (Rate, some .cfloat, some "Social distancing reduction rate: 0.0 - 1.0")),
  ("ventilated", (ValDisposition, none, none)),
  ("hospitalized", (ValDisposition, none, none)),
  ("icu", (ValDisposition, none, none))]

/-- The attribute slot a recognized keyword assigns (the `setattr` in
the construction loop). -/
def pkeyOf (key : String) : Option PKey :=
  if key = "current_hospitalized" then some .current_hospitalized
  else if key = "current_date" then some .current_date
  else if key = "date_first_hospitalized" then some .date_first_hospitalized
  else if key = "doubling_time" then some .doubling_time
  else if key = "infectious_days" then some .infectious_days
  else if key = "mitigation_date" then some .mitigation_date
  else if key = "market_share" then some .market_share
  else if key = "max_y_axis" then some .max_y_axis
  else if key = "n_days" then some .n_days
  else if key = "population" then some .population
  else if key = "recovered" then some .recovered
  else if key = "region" then some .region
  else if key = "relative_contact_rate" then some .relative_contact_rate
  else if key = "ventilated" then some .ventilated
  else if key = "hospitalized" then some .hospitalized
  else if key = "icu" then some .icu
  else none

/-- All recognized attributes start out as `None`. -/
def initialFields : PKey → Value := fun _ => .vNone

def setField (s : PKey → Value) (key : String) (value : Value) : PKey → Value :=
  match pkeyOf key with
  | some pk => Function.update s pk value
  | none => s

/-- The first loop of `Parameters.__init__`: every keyword must be in
`ACCEPTED_PARAMETERS`, else `Unexpected parameter` is raised before any
field is assigned. -/
def checkKeys : List (String × Value) → Except String Unit
  | [] => .ok ()
  | (k, _) :: rest =>
    if (ACCEPTED_PARAMETERS.find? (fun e => e.1 == k)).isSome then checkKeys rest
    else .error ("Unexpected parameter " ++ k)

def runFieldValidator (key : String) (value : Value) : Except String Unit :=
  match ACCEPTED_PARAMETERS.find? (fun e => e.1 == key) with
  | some e => e.2.1 key value
  | none => .error ("Unexpected parameter " ++ key)

/-- The second loop of `Parameters.__init__`: run each keyword's schema
validator, then assign the attribute. -/
def processKwargs : List (String × Value) → (PKey → Value) → Except String (PKey → Value)
  | [], s => .ok s
  | (k, v) :: rest, s =>
    match runFieldValidator k v with
    | .error e => .error e
    | .ok _ => processKwargs rest (setField s k v)

/-- Defaulting of `current_date` and `mitigation_date` to today when
unset. -/
def applyDefaults (s : PKey → Value) (today : PyDate) : PKey → Value :=
  let s1 := if s PKey.current_date = .vNone
    then Function.update s PKey.current_date (.vDate today) else s
  if s1 PKey.mitigation_date = .vNone
    then Function.update s1 PKey.mitigation_date (.vDate today) else s1

/-- Embedding of the `labels` lookup table. -/
def labelsTable : String → Option String := fun key =>
  if key = "hospitalized" then some "Hospitalized"
  else if key = "icu" then some "ICU"
  else if key = "ventilated" then some "Ventilated"
  else if key = "day" then some "Day"
  else if key = "date" then some "Date"
  else if key = "susceptible" then some "Susceptible"
  else if key = "infected" then some "Infected"
  else if key = "recovered" then some "Recovered"
  else none

/-- The resolved configuration object: its attributes, and the `labels`
and `dispositions` lookup tables built at the end of construction. -/
structure Parameters where
  fields : PKey → Value
  labels : String → Option String
  dispositions : String → Option Value

/-- Embedding of `Parameters.__init__`: screen the keywords, validate
and assign each, enforce the population/region invariant, default and
re-validate the two dates, and build the lookup tables. -/
def Parameters.init (kwargs : List (String × Value)) (today : PyDate) :
    Except String Parameters :=
  match checkKeys kwargs with
  | .error e => .error e
  | .ok _ =>
    match processKwargs kwargs initialFields with
    | .error e => .error e
    | .ok s0 =>
      if s0 PKey.region = .vNone ∧ s0 PKey.population = .vNone then
        .error "population or regions must be provided."
      else
        match Date "current_date" (applyDefaults s0 today PKey.current_date) with
        | .error e => .error e
        | .ok _ =>
          match Date "mitigation_date" (applyDefaults s0 today PKey.mitigation_date) with
          | .error e => .error e
          | .ok _ =>
            .ok { fields := applyDefaults s0 today
                  labels := labelsTable
                  dispositions := fun key =>
                    if key = "hospitalized" then some (applyDefaults s0 today PKey.hospitalized)
                    else if key = "icu" then some (applyDefaults s0 today PKey.icu)
                    else if key = "ventilated" then some (applyDefaults s0 today PKey.ventilated)
                    else none }

/-- The keyword set `Parameters.create` passes to the constructor: the
three dispositions first, then the surviving namespace attributes in
registration order (`parameters` and the six disposition scalars having
been deleted). -/
def createKwargs (a : Namespace) : List (String × Value) := [
  ("hospitalized", .vDisp (a Flag.hospitalized_days) (a Flag.hospitalized_rate)),
  ("icu", .vDisp (a Flag.icu_days) (a Flag.icu_rate)),
  ("ventilated", .vDisp (a Flag.ventilated_days) (a Flag.ventilated_rate)),
  ("current_hospitalized", a Flag.current_hospitalized),
  ("current_date", a Flag.current_date),
  ("date_first_hospitalized", a Flag.date_first_hospitalized),
  ("doubling_time", a Flag.doubling_time),
  ("market_share", a Flag.market_share),
  ("infectious_days", a Flag.infectious_days),
  ("mitigation_date", a Flag.mitigation_date),
  ("max_y_axis", a Flag.max_y_axis),
  ("n_days", a Flag.n_days),
  ("recovered", a Flag.recovered),
  ("relative_contact_rate", a Flag.relative_contact_rate),
  ("population", a Flag.population)]

/-- Embedding of `Parameters.create`: resolve the layered namespace,
re-validate the six disposition scalars, build the three `Disposition`
entities, and construct the final `Parameters`. `env` stands for the
process environment's `PARAMETERS` entry, `files` for the file system,
and `today` for `date.today()`. -/
def Parameters.create (env : Option String) (files : String → Option String)
    (argv : List String) (today : PyDate) : Except String Parameters :=
  match resolveNamespace env files argv with
  | .error e => .error e
  | .ok a =>
    match Positive "hospitalized_days" (a Flag.hospitalized_days) with
    | .error e => .error e
    | .ok _ =>
      match Positive "icu_days" (a Flag.icu_days) with
      | .error e => .error e
      | .ok _ =>
        match Positive "ventilated_days" (a Flag.ventilated_days) with
        | .error e => .error e
        | .ok _ =>
          match Rate "hospitalized_rate" (a Flag.hospitalized_rate) with
          | .error e => .error e
          | .ok _ =>
            match Rate "icu_rate" (a Flag.icu_rate) with
            | .error e => .error e
            | .ok _ =>
              match Rate "ventilated_rate" (a Flag.ventilated_rate) with
              | .error e => .error e
              | .ok _ =>
                match Disposition.create (a Flag.hospitalized_days) (a Flag.hospitalized_rate) with
                | .error e => .error e
                | .ok _ =>
                  match Disposition.create (a Flag.icu_days) (a Flag.icu_rate) with
                  | .error e => .error e
                  | .ok _ =>
                    match Disposition.create (a Flag.ventilated_days) (a Flag.ventilated_rate) with
                    | .error e => .error e
                    | .ok _ => Parameters.init (createKwargs a) today

/-! Extractors used to state properties of the `Except`-valued
pipeline. -/

def fieldOf (e : Except String Parameters) (pk : PKey) : Value :=
  match e with
  | .ok p => p.fields pk
  | .error _ => .vNone

def dispOf (e : Except String Parameters) (key : String) : Option Value :=
  match e with
  | .ok p => p.dispositions key
  | .error _ => none

def errMsgOf {α : Type} : Except String α → String
  | .error m => m
  | .ok _ => ""

/-- Whether an error message cites a given key (names it at the front). -/
def cites (key msg : String) : Bool :=
  key.data.isPrefixOf msg.data

/-- Last value a keyword list assigns to an attribute slot. -/
def lastAssigned : List (String × Value) → PKey → Option Value
  | [], _ => none
  | (k, v) :: rest, pk =>
    match lastAssigned rest pk with
    | some w => some w
    | none => if pkeyOf k = some pk then some v else none

/-- First keyword of a list not recognized by `ACCEPTED_PARAMETERS`. -/
def firstUnknown : List (String × Value) → Option String
  | [] => none
  | (k, _) :: rest =>
    if (ACCEPTED_PARAMETERS.find? (fun e => e.1 == k)).isSome then firstUnknown rest
    else some k

/-- Resolved value of an attribute after the keyword-processing loop
(`vNone` when processing fails). -/
def resolvedField (kwargs : List (String × Value)) (pk : PKey) : Value :=
  match processKwargs kwargs initialFields with
  | .ok s => s pk
  | .error _ => .vNone

/-! Concrete inputs used to instantiate the claims. -/

def today0 : PyDate := ⟨2020, 5, 1⟩

def noFiles : String → Option String := fun _ => none

def c1Pairs : List (String × String) := [
  ("--population", "1000"),
  ("--market-share", "0.15"),
  ("--relative-contact-rate", "0.3"),
  ("--doubling-time", "4"),
  ("--infectious-days", "14"),
  ("--hospitalized-days", "7"),
  ("--hospitalized-rate", "0.025"),
  ("--icu-days", "9"),
  ("--icu-rate", "0.0075"),
  ("--ventilated-days", "10"),
  ("--ventilated-rate", "0.005"),
  ("--current-hospitalized", "20"),
  ("--n-days", "60"),
  ("--max-y-axis", "500"),
  ("--recovered", "0")]

def pairsToArgv (ps : List (String × String)) : List String :=
  ps.foldr (fun p acc => p.1 :: p.2 :: acc) []

/-- The claim C1 argument vector. -/
def c1Argv : List String := pairsToArgv c1Pairs

/-- The C1 vector with one flag (and its value) removed. -/
def argvDropFlag (flag : String) : List String :=
  pairsToArgv (c1Pairs.filter (fun p => p.1 != flag))

/-- The required CLI flags outside doubling_time and max_y_axis, with
the key their absence error names. -/
def requiredAbsenceChecks : List (String × String) := [
  ("--current-hospitalized", "current_hospitalized"),
  ("--hospitalized-days", "hospitalized_days"),
  ("--hospitalized-rate", "hospitalized_rate"),
  ("--icu-days", "icu_days"),
  ("--icu-rate", "icu_rate"),
  ("--market-share", "market_share"),
  ("--infectious-days", "infectious_days"),
  ("--n-days", "n_days"),
  ("--recovered", "recovered"),
  ("--relative-contact-rate", "relative_contact_rate"),
  ("--population", "population"),
  ("--ventilated-days", "ventilated_days"),
  ("--ventilated-rate", "ventilated_rate")]

def c2Argv : List String := c1Argv ++ ["--parameters", "p.txt"]

def c2Files : String → Option String :=
  fun p => if p = "p.txt" then some "--population 2000" else none

/-! Helper lemmas about the construction pipeline. -/

theorem setField_apply (s : PKey → Value) (k : String) (v : Value) (pk : PKey) :
    setField s k v pk = if pkeyOf k = some pk then v else s pk := by
  unfold setField
  cases hk : pkeyOf k with
  | none => simp
  | some pk2 =>
    simp only [Function.update_apply, Option.some.injEq]
    by_cases h : pk = pk2
    · subst h; simp
    · rw [if_neg h, if_neg (fun hh => h (Eq.symm hh))]

theorem processKwargs_apply : ∀ (ks : List (String × Value)) (s s0 : PKey → Value),
    processKwargs ks s = .ok s0 → ∀ pk, s0 pk = (lastAssigned ks pk).getD (s pk) := by
  intro ks
  induction ks with
  | nil =>
    intro s s0 h pk
    have hs : s = s0 := by simpa [processKwargs] using h
    subst hs
    simp [lastAssigned]
  | cons kv rest ih =>
    intro s s0 h pk
    obtain ⟨k, v⟩ := kv
    unfold processKwargs at h
    cases hv : runFieldValidator k v with
    | error e => rw [hv] at h; exact absurd h (by simp)
    | ok u =>
      rw [hv] at h
      dsimp only at h
      have hrec := ih _ _ h pk
      rw [hrec]
      show _ = (lastAssigned ((k, v) :: rest) pk).getD (s pk)
      have hcons : lastAssigned ((k, v) :: rest) pk =
          (match lastAssigned rest pk with
           | some w => some w
           | none => if pkeyOf k = some pk then some v else none) := rfl
      rw [hcons]
      cases hl : lastAssigned rest pk with
      | some w => simp
      | none =>
        rw [setField_apply]
        by_cases hpk : pkeyOf k = some pk
        · simp [hpk]
        · simp [hpk]

theorem applyDefaults_cur (s : PKey → Value) (today : PyDate) :
    applyDefaults s today PKey.current_date =
      (if s PKey.current_date = .vNone then .vDate today else s PKey.current_date) := by
  unfold applyDefaults
  split_ifs with h1 h2 h3 <;> simp_all [Function.update_apply]

theorem applyDefaults_mit (s : PKey → Value) (today : PyDate) :
    applyDefaults s today PKey.mitigation_date =
      (if s PKey.mitigation_date = .vNone then .vDate today else s PKey.mitigation_date) := by
  unfold applyDefaults
  split_ifs with h1 h2 h3 <;> simp_all [Function.update_apply]

theorem applyDefaults_other (s : PKey → Value) (today : PyDate) (pk : PKey)
    (h1 : pk ≠ PKey.current_date) (h2 : pk ≠ PKey.mitigation_date) :
    applyDefaults s today pk = s pk := by
  unfold applyDefaults
  split_ifs with a1 a2 a3 <;> simp_all [Function.update_apply]

theorem date_ok {k : String} {v : Value} {u : Unit} (h : Date k v = .ok u) :
    v.isDate = true := by
  cases v <;> first | rfl | exact absurd h (by simp [Date])

theorem init_ok_cases (kwargs : List (String × Value)) (today : PyDate) (p : Parameters)
    (h : Parameters.init kwargs today = .ok p) :
    ∃ s0, checkKeys kwargs = .ok () ∧ processKwargs kwargs initialFields = .ok s0 ∧
      ¬(s0 PKey.region = .vNone ∧ s0 PKey.population = .vNone) ∧
      p.fields = applyDefaults s0 today ∧
      (p.fields PKey.current_date).isDate = true ∧
      (p.fields PKey.mitigation_date).isDate = true ∧
      (∀ key, p.dispositions key =
        (if key = "hospitalized" then some (p.fields PKey.hospitalized)
         else if key = "icu" then some (p.fields PKey.icu)
         else if key = "ventilated" then some (p.fields PKey.ventilated)
         else none)) := by
  unfold Parameters.init at h
  cases hck : checkKeys kwargs with
  | error e => rw [hck] at h; exact absurd h (by simp)
  | ok u =>
    cases u
    rw [hck] at h
    dsimp only at h
    cases hpr : processKwargs kwargs initialFields with
    | error e => rw [hpr] at h; exact absurd h (by simp)
    | ok s0 =>
      rw [hpr] at h
      dsimp only at h
      by_cases hreg : s0 PKey.region = .vNone ∧ s0 PKey.population = .vNone
      · rw [if_pos hreg] at h; exact absurd h (by simp)
      · rw [if_neg hreg] at h
        cases hd1 : Date "current_date" (applyDefaults s0 today PKey.current_date) with
        | error e => rw [hd1] at h; exact absurd h (by simp)
        | ok u1 =>
          rw [hd1] at h
          dsimp only at h
          cases hd2 : Date "mitigation_date" (applyDefaults s0 today PKey.mitigation_date) with
          | error e => rw [hd2] at h; exact absurd h (by simp)
          | ok u2 =>
            rw [hd2] at h
            dsimp only at h
            injection h with h
            subst h
            exact ⟨s0, rfl, rfl, hreg, rfl, date_ok hd1, date_ok hd2, fun key => rfl⟩

theorem twoStepInduction {P : List String → Prop} (h0 : P []) (h1 : ∀ t, P [t])
    (h2 : ∀ t v rest, P rest → P (t :: v :: rest)) : ∀ ts, P ts
  | [] => h0
  | [t] => h1 t
  | t :: v :: rest => h2 t v rest (twoStepInduction h0 h1 h2 rest)

/-- Layering lemma for `parse_args` into an existing namespace: success
and the parsed values depend only on the tokens, a flag the tokens
supply gets the same value whatever namespace is layered on, and a flag
they do not supply keeps the namespace's prior value. -/
theorem parse_layer : ∀ (ts : List String) (ns ns' : Namespace),
    parseArgs ts ns = .ok ns' → ∀ ns0 : Namespace, ∃ ns0',
      parseArgs ts ns0 = .ok ns0' ∧
      ∀ f, (mentions ts f = true → ns' f = ns0' f) ∧
        (mentions ts f = false → ns' f = ns f ∧ ns0' f = ns0 f) := by
  intro ts
  induction ts using twoStepInduction with
  | h0 =>
    intro ns ns' h ns0
    have hs : ns = ns' := by simpa [parseArgs] using h
    subst hs
    exact ⟨ns0, rfl, fun f => ⟨fun hm => by simp [mentions] at hm, fun _ => ⟨rfl, rfl⟩⟩⟩
  | h1 t =>
    intro ns ns' h ns0
    exfalso
    unfold parseArgs at h
    cases hf : findEntry t with
    | none => rw [hf] at h; exact absurd h (by simp)
    | some e => rw [hf] at h; exact absurd h (by simp)
  | h2 t v rest ih =>
    intro ns ns' h ns0
    unfold parseArgs at h
    cases hf : findEntry t with
    | none => rw [hf] at h; exact absurd h (by simp)
    | some e =>
      rw [hf] at h
      dsimp only at h
      cases hv : runCli e v with
      | error msg => rw [hv] at h; exact absurd h (by simp)
      | ok val =>
        rw [hv] at h
        dsimp only at h
        obtain ⟨ns0', hp, hprops⟩ := ih _ _ h (Function.update ns0 e.flag val)
        refine ⟨ns0', ?_, ?_⟩
        · unfold parseArgs
          rw [hf]
          dsimp only
          rw [hv]
          dsimp only
          exact hp
        · intro f
          have hment : mentions (t :: v :: rest) f = ((e.flag == f) || mentions rest f) := by
            simp only [mentions, hf]
          constructor
          · intro hm
            rw [hment] at hm
            by_cases hr : mentions rest f = true
            · exact (hprops f).1 hr
            · have hef : (e.flag == f) = true := by
                rcases (by simpa using hm : (e.flag == f) = true ∨ mentions rest f = true) with hh | hh
                · exact hh
                · exact absurd hh hr
              have hef2 : e.flag = f := by simpa using hef
              obtain ⟨hl, hr2⟩ := (hprops f).2 (by simpa using hr)
              rw [hl, hr2]
              subst hef2
              rw [Function.update_same, Function.update_same]
          · intro hm
            rw [hment] at hm
            have hor : (e.flag == f) = false ∧ mentions rest f = false := by
              constructor
              · cases hh : (e.flag == f)
                · rfl
                · rw [hh] at hm; exact absurd hm (by simp)
              · cases hh : mentions rest f
                · rfl
                · rw [hh] at hm; exact absurd hm (by simp)
            have hne : e.flag ≠ f := by simpa using hor.1
            obtain ⟨hl, hr2⟩ := (hprops f).2 hor.2
            constructor
            · rw [hl, Function.update_noteq (fun hh => hne hh.symm)]
            · rw [hr2, Function.update_noteq (fun hh => hne hh.symm)]

theorem create_resolve_ok (env : Option String) (files : String → Option String)
    (argv : List String) (today : PyDate)
    (h : (Parameters.create env files argv today).isOk = true) :
    resolveNamespace env files argv = .ok (mergedNamespace env files argv) := by
  unfold Parameters.create at h
  cases hres : resolveNamespace env files argv with
  | error e =>
    rw [hres] at h
    dsimp only at h
    simp [Except.isOk, Except.toBool] at h
  | ok a =>
    unfold mergedNamespace nsOf
    rw [hres]

theorem create_ok_init (env : Option String) (files : String → Option String)
    (argv : List String) (today : PyDate) (a : Namespace) (p : Parameters)
    (hres : resolveNamespace env files argv = .ok a)
    (h : Parameters.create env files argv today = .ok p) :
    Parameters.init (createKwargs a) today = .ok p := by
  unfold Parameters.create at h
  rw [hres] at h
  dsimp only at h
  cases h1 : Positive "hospitalized_days" (a Flag.hospitalized_days) with
  | error e => rw [h1] at h; exact absurd h (by simp)
  | ok u1 =>
  rw [h1] at h
  dsimp only at h
  cases h2 : Positive "icu_days" (a Flag.icu_days) with
  | error e => rw [h2] at h; exact absurd h (by simp)
  | ok u2 =>
  rw [h2] at h
  dsimp only at h
  cases h3 : Positive "ventilated_days" (a Flag.ventilated_days) with
  | error e => rw [h3] at h; exact absurd h (by simp)
  | ok u3 =>
  rw [h3] at h
  dsimp only at h
  cases h4 : Rate "hospitalized_rate" (a Flag.hospitalized_rate) with
  | error e => rw [h4] at h; exact absurd h (by simp)
  | ok u4 =>
  rw [h4] at h
  dsimp only at h
  cases h5 : Rate "icu_rate" (a Flag.icu_rate) with
  | error e => rw [h5] at h; exact absurd h (by simp)
  | ok u5 =>
  rw [h5] at h
  dsimp only at h
  cases h6 : Rate "ventilated_rate" (a Flag.ventilated_rate) with
  | error e => rw [h6] at h; exact absurd h (by simp)
  | ok u6 =>
  rw [h6] at h
  dsimp only at h
  cases h7 : Disposition.create (a Flag.hospitalized_days) (a Flag.hospitalized_rate) with
  | error e => rw [h7] at h; exact absurd h (by simp)
  | ok d1 =>
  rw [h7] at h
  dsimp only at h
  cases h8 : Disposition.create (a Flag.icu_days) (a Flag.icu_rate) with
  | error e => rw [h8] at h; exact absurd h (by simp)
  | ok d2 =>
  rw [h8] at h
  dsimp only at h
  cases h9 : Disposition.create (a Flag.ventilated_days) (a Flag.ventilated_rate) with
  | error e => rw [h9] at h; exact absurd h (by simp)
  | ok d3 =>
  rw [h9] at h
  dsimp only at h
  exact h

/-- The `checkKeys` screening loop errors exactly at the first
unrecognized keyword. -/
theorem checkKeys_eq : ∀ kwargs : List (String × Value),
    checkKeys kwargs = (match firstUnknown kwargs with
      | none => .ok ()
      | some k => .error ("Unexpected parameter " ++ k)) := by
  intro kwargs
  induction kwargs with
  | nil => rfl
  | cons kv rest ih =>
    obtain ⟨k, v⟩ := kv
    unfold checkKeys firstUnknown
    by_cases hk : (ACCEPTED_PARAMETERS.find? (fun e => e.1 == k)).isSome = true
    · rw [if_pos hk, if_pos hk, ih]
    · rw [if_neg hk, if_neg hk]

theorem firstUnknown_spec : ∀ (kwargs : List (String × Value)) (k0 : String),
    firstUnknown kwargs = some k0 →
      k0 ∈ kwargs.map Prod.fst ∧
      (ACCEPTED_PARAMETERS.find? (fun e => e.1 == k0)).isSome = false := by
  intro kwargs
  induction kwargs with
  | nil => intro k0 h; exact absurd h (by simp [firstUnknown])
  | cons kv rest ih =>
    intro k0 h
    obtain ⟨k, v⟩ := kv
    unfold firstUnknown at h
    by_cases hk : (ACCEPTED_PARAMETERS.find? (fun e => e.1 == k)).isSome = true
    · rw [if_pos hk] at h
      obtain ⟨hmem, hacc⟩ := ih k0 h
      exact ⟨by rw [List.map_cons]; exact List.mem_cons_of_mem _ hmem, hacc⟩
    · rw [if_neg hk] at h
      injection h with h
      subst h
      constructor
      · rw [List.map_cons]
        exact List.mem_cons_self _ _
      · cases hb : (ACCEPTED_PARAMETERS.find? (fun e => e.1 == k)).isSome
        · rfl
        · exact absurd hb hk

theorem firstUnknown_isSome : ∀ (kwargs : List (String × Value)) (k : String),
    k ∈ kwargs.map Prod.fst →
    (ACCEPTED_PARAMETERS.find? (fun e => e.1 == k)).isSome = false →
    (firstUnknown kwargs).isSome = true := by
  intro kwargs
  induction kwargs with
  | nil => intro k hmem; simp at hmem
  | cons kv rest ih =>
    intro k hmem hacc
    obtain ⟨k1, v1⟩ := kv
    rw [List.map_cons] at hmem
    unfold firstUnknown
    by_cases hk : (ACCEPTED_PARAMETERS.find? (fun e => e.1 == k1)).isSome = true
    · rw [if_pos hk]
      rcases List.mem_cons.mp hmem with hh | hh
      · subst hh; rw [hk] at hacc; exact absurd hacc (by simp)
      · exact ih k hh hacc
    · rw [if_neg hk]; rfl

theorem init_of_checkKeys_error (kwargs : List (String × Value)) (today : PyDate)
    (e : String) (h : checkKeys kwargs = .error e) :
    Parameters.init kwargs today = .error e := by
  unfold Parameters.init
  rw [h]

theorem find?_isSome_iff_mem_map
    (l : List (String × ((String → Value → Except String Unit) × Option Cast × Option String)))
    (k : String) : (l.find? (fun e => e.1 == k)).isSome = true ↔ k ∈ l.map Prod.fst := by
  rw [List.find?_isSome]
  constructor
  · rintro ⟨x, hx, hp⟩
    have hx1 : x.1 = k := by simpa using hp
    exact hx1 ▸ List.mem_map_of_mem Prod.fst hx
  · intro hk
    obtain ⟨x, hx, hx1⟩ := List.mem_map.mp hk
    exact ⟨x, hx, by simpa using hx1⟩

/-- Evaluation of `Disposition.create` on an int `days` and float
`rate`: the `days` check runs first, then the `rate` check. -/
theorem disp_create_eval (d : Int) (r : PyFloat) :
    Disposition.create (.vInt d) (.vFloat r) =
      (if d < 0 then .error "days must be greater than or equal to 0."
       else if r.num < 0 ∨ (r.den : Int) < r.num then
         .error "rate must be a rate between 0 and 1."
       else .ok (.vDisp (.vInt d) (.vFloat r))) := by
  unfold Disposition.create Positive Rate
  dsimp only [Value.toFloat?]
  have e1 : PyFloat.ltB ⟨d, 1⟩ ⟨0, 1⟩ = decide (d < 0) := by
    unfold PyFloat.ltB
    simp
  have e2 : PyFloat.ltB r ⟨0, 1⟩ = decide (r.num < 0) := by
    unfold PyFloat.ltB
    simp
  have e3 : PyFloat.ltB ⟨1, 1⟩ r = decide ((r.den : Int) < r.num) := by
    unfold PyFloat.ltB
    simp
  rw [e1, e2, e3]
  by_cases hd : d < 0
  · rw [if_pos (by simpa using hd), if_pos hd]
    rfl
  · rw [if_neg (by simpa using hd), if_neg hd]
    dsimp only
    by_cases hr : r.num < 0 ∨ (r.den : Int) < r.num
    · have hb : (decide (r.num < 0) || decide ((r.den : Int) < r.num)) = true := by
        rcases hr with hh | hh
        · simp [hh]
        · simp [hh]
      rw [if_pos hb, if_pos hr]
      rfl
    · have hb : (decide (r.num < 0) || decide ((r.den : Int) < r.num)) = false := by
        rcases not_or.mp hr with ⟨h1, h2⟩
        simp [h1, h2]
      rw [if_neg (by simp [hb]), if_neg hr]

/-! Claim theorems. -/

/-- C1: resolving the given CLI argument vector with no parameters file
and no PARAMETERS environment entry succeeds, and the resulting
`Parameters` has hospitalized Disposition `(days=7, rate=0.025)`,
population `1000`, and `dispositions["icu"].rate = 0.0075`. -/
theorem claim_c1_cli_round_trip :
    (Parameters.create none noFiles c1Argv today0).isOk = true
    ∧ fieldOf (Parameters.create none noFiles c1Argv today0) PKey.hospitalized
        = .vDisp (.vInt 7) (.vFloat ⟨1, 40⟩)
    ∧ fieldOf (Parameters.create none noFiles c1Argv today0) PKey.population = .vInt 1000
    ∧ (dispOf (Parameters.create none noFiles c1Argv today0) "icu").map Value.dispRate
        = some (.vFloat ⟨3, 400⟩) := by
  decide

/-- C3 counterexample: construction succeeds with BOTH `region` and
`population` supplied non-empty, so "exactly one of region and
population" is not enforced; only joint absence is rejected. -/
theorem claim_c3_counterexample :
    (Parameters.init [("region", .vStr "region one"), ("population", .vInt 1000)] today0).isOk = true
    ∧ fieldOf (Parameters.init [("region", .vStr "region one"), ("population", .vInt 1000)] today0)
        PKey.region ≠ .vNone
    ∧ fieldOf (Parameters.init [("region", .vStr "region one"), ("population", .vInt 1000)] today0)
        PKey.population ≠ .vNone := by
  decide

/-- C5 counterexample: at `days = -1`, `rate = 2` the rate lies outside
`[0, 1]`, yet `Disposition.create` fails citing `days` (checked first),
not `rate`. -/
theorem claim_c5_counterexample :
    ((-1 : Int) < 0 ∧ PyFloat.ltB ⟨1, 1⟩ ⟨2, 1⟩ = true)
    ∧ Disposition.create (.vInt (-1)) (.vFloat ⟨2, 1⟩)
        = .error "days must be greater than or equal to 0."
    ∧ cites "rate" (errMsgOf (Disposition.create (.vInt (-1)) (.vFloat ⟨2, 1⟩))) = false := by
  decide

/-- C6 counterexample: `ACCEPTED_PARAMETERS` holds 16 parameter names,
not 15 as claimed. -/
theorem claim_c6_counterexample :
    (ACCEPTED_PARAMETERS.map Prod.fst).length = 16
    ∧ ¬((ACCEPTED_PARAMETERS.map Prod.fst).length = 15) := by
  decide

/-- C9: whenever construction succeeds with `current_date` unset
(absent or `None`), the resulting `current_date` equals today at
resolution time; likewise for `mitigation_date`; and both dates are
re-validated as date objects after defaulting. -/
theorem claim_c9_date_defaults (kwargs : List (String × Value)) (today : PyDate)
    (h : (Parameters.init kwargs today).isOk = true) :
    ((lastAssigned kwargs PKey.current_date).getD .vNone = .vNone →
      fieldOf (Parameters.init kwargs today) PKey.current_date = .vDate today)
    ∧ ((lastAssigned kwargs PKey.mitigation_date).getD .vNone = .vNone →
      fieldOf (Parameters.init kwargs today) PKey.mitigation_date = .vDate today)
    ∧ (fieldOf (Parameters.init kwargs today) PKey.current_date).isDate = true
    ∧ (fieldOf (Parameters.init kwargs today) PKey.mitigation_date).isDate = true := by
  cases hin : Parameters.init kwargs today with
  | error e => rw [hin] at h; simp [Except.isOk, Except.toBool] at h
  | ok p =>
    obtain ⟨s0, hck, hpr, hreg, hfld, hcd, hmd, hdisp⟩ := init_ok_cases kwargs today p hin
    have hs0 : ∀ pk, s0 pk = (lastAssigned kwargs pk).getD .vNone := by
      intro pk
      rw [processKwargs_apply kwargs initialFields s0 hpr pk]
      rfl
    refine ⟨?_, ?_, hcd, hmd⟩
    · intro hunset
      show p.fields PKey.current_date = .vDate today
      rw [hfld, applyDefaults_cur]
      have hcur : s0 PKey.current_date = .vNone := by rw [hs0]; exact hunset
      rw [if_pos hcur]
    · intro hunset
      show p.fields PKey.mitigation_date = .vDate today
      rw [hfld, applyDefaults_mit]
      have hmit : s0 PKey.mitigation_date = .vNone := by rw [hs0]; exact hunset
      rw [if_pos hmit]

/-- C9 witness at `kwargs = [("population", 7)]` on 2020-05-01. -/
theorem claim_c9_witness :
    fieldOf (Parameters.init [("population", .vInt 7)] today0) PKey.current_date
        = .vDate today0
    ∧ fieldOf (Parameters.init [("population", .vInt 7)] today0) PKey.mitigation_date
        = .vDate today0
    ∧ (fieldOf (Parameters.init [("population", .vInt 7)] today0) PKey.current_date).isDate = true
    ∧ (fieldOf (Parameters.init [("population", .vInt 7)] today0) PKey.mitigation_date).isDate = true := by
  have h := claim_c9_date_defaults [("population", .vInt 7)] today0 (by decide)
  exact ⟨h.1 (by decide), h.2.1 (by decide), h.2.2.1, h.2.2.2⟩

/-- C10: after every successful construction, the `dispositions` table
maps "hospitalized", "icu" and "ventilated" to exactly the values of
the corresponding attributes. -/
theorem claim_c10_dispositions_table (kwargs : List (String × Value)) (today : PyDate)
    (h : (Parameters.init kwargs today).isOk = true) :
    dispOf (Parameters.init kwargs today) "hospitalized"
        = some (fieldOf (Parameters.init kwargs today) PKey.hospitalized)
    ∧ dispOf (Parameters.init kwargs today) "icu"
        = some (fieldOf (Parameters.init kwargs today) PKey.icu)
    ∧ dispOf (Parameters.init kwargs today) "ventilated"
        = some (fieldOf (Parameters.init kwargs today) PKey.ventilated) := by
  cases hin : Parameters.init kwargs today with
  | error e => rw [hin] at h; simp [Except.isOk, Except.toBool] at h
  | ok p =>
    obtain ⟨s0, hck, hpr, hreg, hfld, hcd, hmd, hdisp⟩ := init_ok_cases kwargs today p hin
    refine ⟨?_, ?_, ?_⟩
    · show p.dispositions "hospitalized" = some (p.fields PKey.hospitalized)
      rw [hdisp "hospitalized", if_pos rfl]
    · show p.dispositions "icu" = some (p.fields PKey.icu)
      rw [hdisp "icu", if_neg (by decide), if_pos rfl]
    · show p.dispositions "ventilated" = some (p.fields PKey.ventilated)
      rw [hdisp "ventilated", if_neg (by decide), if_neg (by decide), if_pos rfl]

/-- C10 witness at `kwargs = [("population", 7)]` on 2020-05-01. -/
theorem claim_c10_witness :
    dispOf (Parameters.init [("population", .vInt 7)] today0) "hospitalized"
        = some (fieldOf (Parameters.init [("population", .vInt 7)] today0) PKey.hospitalized)
    ∧ dispOf (Parameters.init [("population", .vInt 7)] today0) "icu"
        = some (fieldOf (Parameters.init [("population", .vInt 7)] today0) PKey.icu)
    ∧ dispOf (Parameters.init [("population", .vInt 7)] today0) "ventilated"
        = some (fieldOf (Parameters.init [("population", .vInt 7)] today0) PKey.ventilated) :=
  claim_c10_dispositions_table [("population", .vInt 7)] today0 (by decide)

/-- C8: a keyword set containing a name outside `ACCEPTED_PARAMETERS`
always makes construction fail with an `Unexpected parameter` error
naming an unexpected keyword, and the rejection happens in the
key-screening loop, before any field is assigned. -/
theorem claim_c8_unexpected_parameter (kwargs : List (String × Value)) (today : PyDate)
    (k : String) (h1 : k ∈ kwargs.map Prod.fst)
    (h2 : (ACCEPTED_PARAMETERS.find? (fun e => e.1 == k)).isSome = false) :
    (firstUnknown kwargs).isSome = true
    ∧ (firstUnknown kwargs).getD "" ∈ kwargs.map Prod.fst
    ∧ (ACCEPTED_PARAMETERS.find? (fun e => e.1 == (firstUnknown kwargs).getD "")).isSome = false
    ∧ checkKeys kwargs = .error ("Unexpected parameter " ++ (firstUnknown kwargs).getD "")
    ∧ Parameters.init kwargs today
        = .error ("Unexpected parameter " ++ (firstUnknown kwargs).getD "") := by
  have hsome := firstUnknown_isSome kwargs k h1 h2
  obtain ⟨k0, hk0⟩ := Option.isSome_iff_exists.mp hsome
  obtain ⟨hmem, hacc⟩ := firstUnknown_spec kwargs k0 hk0
  have hck : checkKeys kwargs = .error ("Unexpected parameter " ++ (firstUnknown kwargs).getD "") := by
    rw [checkKeys_eq kwargs, hk0]
    rfl
  refine ⟨hsome, ?_, ?_, hck, init_of_checkKeys_error kwargs today _ hck⟩
  · rw [hk0]
    exact hmem
  · rw [hk0]
    exact hacc

/-- C8 witness: the keyword `foo` is rejected with the expected error. -/
theorem claim_c8_witness :
    (firstUnknown [("foo", Value.vInt 1)]).isSome = true
    ∧ (firstUnknown [("foo", Value.vInt 1)]).getD "" ∈ [("foo", Value.vInt 1)].map Prod.fst
    ∧ (ACCEPTED_PARAMETERS.find?
        (fun e => e.1 == (firstUnknown [("foo", Value.vInt 1)]).getD "")).isSome = false
    ∧ checkKeys [("foo", Value.vInt 1)]
        = .error ("Unexpected parameter " ++ (firstUnknown [("foo", Value.vInt 1)]).getD "")
    ∧ Parameters.init [("foo", Value.vInt 1)] today0
        = .error ("Unexpected parameter " ++ (firstUnknown [("foo", Value.vInt 1)]).getD "") :=
  claim_c8_unexpected_parameter [("foo", Value.vInt 1)] today0 "foo" (by decide) (by decide)

/-- C6 amended: `ACCEPTED_PARAMETERS` is a static mapping of exactly 16
distinct parameter names (not 15), and the constructor's key screening
accepts a keyword exactly when it is one of them. -/
theorem claim_c6_amended :
    (ACCEPTED_PARAMETERS.map Prod.fst).length = 16
    ∧ (ACCEPTED_PARAMETERS.map Prod.fst).Nodup
    ∧ ∀ (k : String) (v : Value),
        (checkKeys [(k, v)] = .ok () ↔ k ∈ ACCEPTED_PARAMETERS.map Prod.fst) := by
  refine ⟨by decide, by decide, ?_⟩
  intro k v
  constructor
  · intro h
    by_cases hk : (ACCEPTED_PARAMETERS.find? (fun e => e.1 == k)).isSome = true
    · exact (find?_isSome_iff_mem_map _ k).mp hk
    · exfalso
      unfold checkKeys at h
      rw [if_neg hk] at h
      exact absurd h (by simp)
  · intro hm
    have hk := (find?_isSome_iff_mem_map _ k).mpr hm
    unfold checkKeys
    rw [if_pos hk]
    rfl

/-- C6 witness: the accepted keyword `population` passes screening. -/
theorem claim_c6_witness : checkKeys [("population", Value.vInt 1)] = .ok () :=
  (claim_c6_amended.2.2 "population" (Value.vInt 1)).mpr (by decide)

/-- C3 amended: construction requires at least one of `region` and
`population` to be non-None (both supplied is also accepted, see the
counterexample): success implies one of them resolved non-None, and
when the keyword loops succeed with both resolved to `None`,
construction fails with the population/region invariant error. -/
theorem claim_c3_amended (kwargs : List (String × Value)) (today : PyDate) :
    ((Parameters.init kwargs today).isOk = true →
      (resolvedField kwargs PKey.region ≠ .vNone
       ∨ resolvedField kwargs PKey.population ≠ .vNone))
    ∧ (checkKeys kwargs = .ok () →
       (processKwargs kwargs initialFields).isOk = true →
       resolvedField kwargs PKey.region = .vNone →
       resolvedField kwargs PKey.population = .vNone →
       Parameters.init kwargs today = .error "population or regions must be provided.") := by
  constructor
  · intro h
    cases hin : Parameters.init kwargs today with
    | error e => rw [hin] at h; simp [Except.isOk, Except.toBool] at h
    | ok p =>
      obtain ⟨s0, hck, hpr, hreg, _, _, _, _⟩ := init_ok_cases kwargs today p hin
      have hrfr : resolvedField kwargs PKey.region = s0 PKey.region := by
        unfold resolvedField
        rw [hpr]
      have hrfp : resolvedField kwargs PKey.population = s0 PKey.population := by
        unfold resolvedField
        rw [hpr]
      rw [hrfr, hrfp]
      exact not_and_or.mp hreg
  · intro hck hpo hr hp
    unfold Parameters.init
    rw [hck]
    dsimp only
    cases hprc : processKwargs kwargs initialFields with
    | error e => rw [hprc] at hpo; simp [Except.isOk, Except.toBool] at hpo
    | ok s0 =>
      dsimp only
      have hr0 : s0 PKey.region = .vNone := by
        unfold resolvedField at hr
        rw [hprc] at hr
        exact hr
      have hp0 : s0 PKey.population = .vNone := by
        unfold resolvedField at hp
        rw [hprc] at hp
        exact hp
      rw [if_pos ⟨hr0, hp0⟩]

/-- C3 witness: success with population supplied resolves it non-None,
and the empty keyword set fails with the invariant error. -/
theorem claim_c3_witness :
    (resolvedField [("population", Value.vInt 5)] PKey.region ≠ .vNone
     ∨ resolvedField [("population", Value.vInt 5)] PKey.population ≠ .vNone)
    ∧ Parameters.init [] today0 = .error "population or regions must be provided." :=
  ⟨(claim_c3_amended [("population", Value.vInt 5)] today0).1 (by decide),
   (claim_c3_amended [] today0).2 (by decide) (by decide) (by decide) (by decide)⟩

/-- C5 amended: for int `days` and float `rate` (a fraction with
positive denominator), `Disposition.create` succeeds with fields equal
to the inputs exactly when `days ≥ 0` and `0 ≤ rate ≤ 1`; for
`days < 0` it fails citing `days`; and for `rate` outside `[0, 1]` it
fails citing `rate` provided `days ≥ 0`, since the `days` check runs
first. -/
theorem claim_c5_amended (d : Int) (r : PyFloat) (_hden : 0 < r.den) :
    (Disposition.create (.vInt d) (.vFloat r) = .ok (.vDisp (.vInt d) (.vFloat r))
      ↔ (0 ≤ d ∧ 0 ≤ r.num ∧ r.num ≤ (r.den : Int)))
    ∧ (d < 0 →
        (Disposition.create (.vInt d) (.vFloat r)).isOk = false
        ∧ cites "days" (errMsgOf (Disposition.create (.vInt d) (.vFloat r))) = true)
    ∧ (0 ≤ d → (r.num < 0 ∨ (r.den : Int) < r.num) →
        (Disposition.create (.vInt d) (.vFloat r)).isOk = false
        ∧ cites "rate" (errMsgOf (Disposition.create (.vInt d) (.vFloat r))) = true) := by
  rw [disp_create_eval]
  refine ⟨?_, ?_, ?_⟩
  · by_cases hd : d < 0
    · rw [if_pos hd]
      constructor
      · intro hh
        exact absurd hh (by simp)
      · rintro ⟨h0, _⟩
        omega
    · rw [if_neg hd]
      by_cases hr : r.num < 0 ∨ (r.den : Int) < r.num
      · rw [if_pos hr]
        constructor
        · intro hh
          exact absurd hh (by simp)
        · rintro ⟨_, h1, h2⟩
          omega
      · rw [if_neg hr]
        constructor
        · intro _
          rcases not_or.mp hr with ⟨h1, h2⟩
          omega
        · intro _
          rfl
  · intro hd
    rw [if_pos hd]
    exact ⟨rfl, by decide⟩
  · intro hd hr
    rw [if_neg (by omega), if_pos hr]
    exact ⟨rfl, by decide⟩

/-- C5 witness: create `(days = -1, rate = 0/1)` fails citing days,
create `(days = 1, rate = 2/1)` fails citing rate, and create
`(days = 7, rate = 1/40)` succeeds returning its inputs. -/
theorem claim_c5_witness :
    ((Disposition.create (.vInt (-1)) (.vFloat ⟨0, 1⟩)).isOk = false
      ∧ cites "days" (errMsgOf (Disposition.create (.vInt (-1)) (.vFloat ⟨0, 1⟩))) = true)
    ∧ ((Disposition.create (.vInt 1) (.vFloat ⟨2, 1⟩)).isOk = false
      ∧ cites "rate" (errMsgOf (Disposition.create (.vInt 1) (.vFloat ⟨2, 1⟩))) = true)
    ∧ Disposition.create (.vInt 7) (.vFloat ⟨1, 40⟩)
        = .ok (.vDisp (.vInt 7) (.vFloat ⟨1, 40⟩)) :=
  ⟨(claim_c5_amended (-1) ⟨0, 1⟩ (by decide)).2.1 (by decide),
   (claim_c5_amended 1 ⟨2, 1⟩ (by decide)).2.2 (by decide) (by decide),
   (claim_c5_amended 7 ⟨1, 40⟩ (by decide)).1.mpr (by decide)⟩

/-- C7: for every CLI schema entry, the flag's argument-level validation
function treats an empty string on a non-str cast as absent (`None` if
not required, a required-flag error otherwise), and otherwise casts the
string and fails with a bounds-violation message exactly when a
declared min or max bound is violated, returning the cast value
otherwise (min is checked before max). -/
theorem claim_c7_flag_validator (e : CliArg) (_he : e ∈ cli_args) (s : String) :
    ((s = "" ∧ e.cast ≠ Cast.cstr) →
      validator (to_cli e.name) e.cast e.minValue e.maxValue e.required s
        = (if e.required then .error (to_cli e.name ++ " is required.") else .ok .vNone))
    ∧ (∀ v : Value, ¬(s = "" ∧ e.cast ≠ Cast.cstr) → e.cast.run s = .ok v →
        ((validator (to_cli e.name) e.cast e.minValue e.maxValue e.required s = .ok v)
          ↔ (violatesMin e.minValue v = false ∧ violatesMax e.maxValue v = false))
        ∧ (violatesMin e.minValue v = true →
            validator (to_cli e.name) e.cast e.minValue e.maxValue e.required s
              = .error (to_cli e.name ++ " must be greater than " ++ pyShowOpt e.minValue ++ "."))
        ∧ (violatesMin e.minValue v = false → violatesMax e.maxValue v = true →
            validator (to_cli e.name) e.cast e.minValue e.maxValue e.required s
              = .error (to_cli e.name ++ " must be less than " ++ pyShowOpt e.maxValue ++ "."))) := by
  constructor
  · intro hcond
    unfold validator
    rw [if_pos hcond]
  · intro v hncond hcast
    unfold validator
    rw [if_neg hncond, hcast]
    dsimp only
    by_cases hmin : violatesMin e.minValue v = true
    · rw [if_pos hmin]
      refine ⟨?_, fun _ => rfl, ?_⟩
      · constructor
        · intro hh
          exact absurd hh (by simp)
        · rintro ⟨hf, _⟩
          rw [hmin] at hf
          exact absurd hf (by simp)
      · intro hf _
        rw [hmin] at hf
        exact absurd hf (by simp)
    · have hminf : violatesMin e.minValue v = false := by
        cases hb : violatesMin e.minValue v
        · rfl
        · exact absurd hb hmin
      rw [if_neg hmin]
      by_cases hmax : violatesMax e.maxValue v = true
      · rw [if_pos hmax]
        refine ⟨?_, ?_, fun _ _ => rfl⟩
        · constructor
          · intro hh
            exact absurd hh (by simp)
          · rintro ⟨_, hf⟩
            rw [hmax] at hf
            exact absurd hf (by simp)
        · intro ht
          exact absurd ht hmin
      · have hmaxf : violatesMax e.maxValue v = false := by
          cases hb : violatesMax e.maxValue v
          · rfl
          · exact absurd hb hmax
        rw [if_neg hmax]
        refine ⟨⟨fun _ => ⟨hminf, hmaxf⟩, fun _ => rfl⟩, ?_, ?_⟩
        · intro ht
          exact absurd ht hmin
        · intro _ ht
          exact absurd ht hmax

/-- C7 witness: the `--population` entry on input string `0` casts to
int 0, violates the declared min bound 1, and fails with the bounds
message. -/
theorem claim_c7_witness :
    validator "--population" Cast.cint (some (Value.vInt 1)) none true "0"
      = .error "--population must be greater than 1." := by
  have h := (claim_c7_flag_validator
    ⟨"population", Cast.cint, some (Value.vInt 1), none,
      some "Regional population >= 1", true, Flag.population⟩
    (by decide) "0").2 (Value.vInt 0) (by decide) (by decide)
  exact h.2.1 (by decide)

/-- C4 counterexample: `doubling_time` is marked required in the CLI
schema, yet resolving the C1 vector with `--doubling-time` absent (and
no parameters file from either source) succeeds instead of aborting. -/
theorem claim_c4_counterexample :
    ((cli_args.find? (fun e => e.name == "doubling_time")).map (fun e => e.required)
      = some true)
    ∧ "--doubling-time" ∉ argvDropFlag "--doubling-time"
    ∧ resolvedPath none (nsOf (parseArgs (argvDropFlag "--doubling-time") emptyNs)) = none
    ∧ (Parameters.create none noFiles (argvDropFlag "--doubling-time") today0).isOk = true := by
  decide

/-- C4 amended: required-ness is enforced by the flag validator only
against an explicitly supplied empty string; for a required flag wholly
absent from both sources, resolution aborts with an error naming the
flag only when a downstream validator rejects `None` (all required
flags except `doubling_time` and `max_y_axis`, whose field validators
accept `None`, so resolution succeeds without them). -/
theorem claim_c4_amended :
    (∀ e : CliArg, e ∈ cli_args → e.required = true →
      validator (to_cli e.name) e.cast e.minValue e.maxValue e.required ""
        = .error (to_cli e.name ++ " is required."))
    ∧ (requiredAbsenceChecks.all (fun p =>
        (!(Parameters.create none noFiles (argvDropFlag p.1) today0).isOk)
        && cites p.2 (errMsgOf (Parameters.create none noFiles (argvDropFlag p.1) today0)))
      = true)
    ∧ (Parameters.create none noFiles (argvDropFlag "--doubling-time") today0).isOk = true
    ∧ (Parameters.create none noFiles (argvDropFlag "--max-y-axis") today0).isOk = true := by
  refine ⟨?_, by decide, by decide, by decide⟩
  intro e he hreq
  fin_cases he <;> first | exact absurd hreq (by decide) | decide

/-- C4 witness: the required `--doubling-time` flag supplied with an
empty string fails with the required-flag message. -/
theorem claim_c4_witness :
    validator "--doubling-time" Cast.cfloat (some (Value.vFloat ⟨0, 1⟩)) none true ""
      = .error "--doubling-time is required." :=
  claim_c4_amended.1
    ⟨"doubling_time", Cast.cfloat, some (.vFloat ⟨0, 1⟩), none,
      some "Doubling time before social distancing (days)", true, Flag.doubling_time⟩
    (by decide) rfl

/-- C2: when a parameters file is resolved, the file's tokens are
re-parsed into the CLI namespace, so every flag the file supplies takes
the file's parsed value and every flag it does not supply keeps the CLI
value; and the final `Parameters` object carries the merged namespace's
values (the six disposition scalars packaged into the three
`Disposition` fields, and the two dates defaulting only when the merged
value is `None`). -/
theorem claim_c2_file_overrides_cli (env : Option String) (files : String → Option String)
    (argv : List String) (today : PyDate) (path contents : String)
    (h1 : (parseArgs argv emptyNs).isOk = true)
    (h2 : resolvedPath env (nsOf (parseArgs argv emptyNs)) = some path)
    (h3 : files path = some contents)
    (h5 : (parseArgs (tokenize contents) emptyNs).isOk = true) :
    (resolveNamespace env files argv).isOk = true
    ∧ (∀ f : Flag,
        (mentions (tokenize contents) f = true →
          mergedNamespace env files argv f = nsOf (parseArgs (tokenize contents) emptyNs) f)
        ∧ (mentions (tokenize contents) f = false →
          mergedNamespace env files argv f = nsOf (parseArgs argv emptyNs) f))
    ∧ ((Parameters.create env files argv today).isOk = true →
        (fieldOf (Parameters.create env files argv today) PKey.population
            = mergedNamespace env files argv Flag.population
         ∧ fieldOf (Parameters.create env files argv today) PKey.current_hospitalized
            = mergedNamespace env files argv Flag.current_hospitalized
         ∧ fieldOf (Parameters.create env files argv today) PKey.date_first_hospitalized
            = mergedNamespace env files argv Flag.date_first_hospitalized
         ∧ fieldOf (Parameters.create env files argv today) PKey.doubling_time
            = mergedNamespace env files argv Flag.doubling_time
         ∧ fieldOf (Parameters.create env files argv today) PKey.market_share
            = mergedNamespace env files argv Flag.market_share
         ∧ fieldOf (Parameters.create env files argv today) PKey.infectious_days
            = mergedNamespace env files argv Flag.infectious_days
         ∧ fieldOf (Parameters.create env files argv today) PKey.max_y_axis
            = mergedNamespace env files argv Flag.max_y_axis
         ∧ fieldOf (Parameters.create env files argv today) PKey.n_days
            = mergedNamespace env files argv Flag.n_days
         ∧ fieldOf (Parameters.create env files argv today) PKey.recovered
            = mergedNamespace env files argv Flag.recovered
         ∧ fieldOf (Parameters.create env files argv today) PKey.relative_contact_rate
            = mergedNamespace env files argv Flag.relative_contact_rate
         ∧ fieldOf (Parameters.create env files argv today) PKey.hospitalized
            = .vDisp (mergedNamespace env files argv Flag.hospitalized_days)
                (mergedNamespace env files argv Flag.hospitalized_rate)
         ∧ fieldOf (Parameters.create env files argv today) PKey.icu
            = .vDisp (mergedNamespace env files argv Flag.icu_days)
                (mergedNamespace env files argv Flag.icu_rate)
         ∧ fieldOf (Parameters.create env files argv today) PKey.ventilated
            = .vDisp (mergedNamespace env files argv Flag.ventilated_days)
                (mergedNamespace env files argv Flag.ventilated_rate)
         ∧ (mergedNamespace env files argv Flag.current_date ≠ .vNone →
            fieldOf (Parameters.create env files argv today) PKey.current_date
              = mergedNamespace env files argv Flag.current_date)
         ∧ (mergedNamespace env files argv Flag.mitigation_date ≠ .vNone →
            fieldOf (Parameters.create env files argv today) PKey.mitigation_date
              = mergedNamespace env files argv Flag.mitigation_date))) := by
  cases hA : parseArgs argv emptyNs with
  | error e => rw [hA] at h1; simp [Except.isOk, Except.toBool] at h1
  | ok ns1 =>
    have h2a : resolvedPath env ns1 = some path := by
      rw [hA] at h2
      exact h2
    cases hF : parseArgs (tokenize contents) emptyNs with
    | error e => rw [hF] at h5; simp [Except.isOk, Except.toBool] at h5
    | ok nsF =>
      obtain ⟨ns2, hp2, hprops⟩ := parse_layer (tokenize contents) emptyNs nsF hF ns1
      have hres : resolveNamespace env files argv = .ok ns2 := by
        unfold resolveNamespace
        rw [hA]
        dsimp only
        rw [h2a]
        dsimp only
        rw [h3]
        dsimp only
        exact hp2
      have hmg : mergedNamespace env files argv = ns2 := by
        unfold mergedNamespace nsOf
        rw [hres]
      refine ⟨by rw [hres]; rfl, ?_, ?_⟩
      · intro f
        rw [hmg]
        constructor
        · intro hm
          show ns2 f = nsF f
          exact ((hprops f).1 hm).symm
        · intro hm
          show ns2 f = ns1 f
          exact ((hprops f).2 hm).2
      · intro hcr
        cases hC : Parameters.create env files argv today with
        | error e => rw [hC] at hcr; simp [Except.isOk, Except.toBool] at hcr
        | ok p =>
          have hinit := create_ok_init env files argv today ns2 p hres hC
          obtain ⟨s0, hck, hpr, hreg, hfld, hcd, hmd, hdisp⟩ :=
            init_ok_cases (createKwargs ns2) today p hinit
          have hs0 : ∀ pk, s0 pk = (lastAssigned (createKwargs ns2) pk).getD .vNone := by
            intro pk
            rw [processKwargs_apply (createKwargs ns2) initialFields s0 hpr pk]
            rfl
          rw [hmg]
          refine ⟨?_, ?_, ?_, ?_, ?_, ?_, ?_, ?_, ?_, ?_, ?_, ?_, ?_, ?_, ?_⟩
          · show p.fields PKey.population = ns2 Flag.population
            rw [hfld, applyDefaults_other _ _ _ (by decide) (by decide), hs0]
            rfl
          · show p.fields PKey.current_hospitalized = ns2 Flag.current_hospitalized
            rw [hfld, applyDefaults_other _ _ _ (by decide) (by decide), hs0]
            rfl
          · show p.fields PKey.date_first_hospitalized = ns2 Flag.date_first_hospitalized
            rw [hfld, applyDefaults_other _ _ _ (by decide) (by decide), hs0]
            rfl
          · show p.fields PKey.doubling_time = ns2 Flag.doubling_time
            rw [hfld, applyDefaults_other _ _ _ (by decide) (by decide), hs0]
            rfl
          · show p.fields PKey.market_share = ns2 Flag.market_share
            rw [hfld, applyDefaults_other _ _ _ (by decide) (by decide), hs0]
            rfl
          · show p.fields PKey.infectious_days = ns2 Flag.infectious_days
            rw [hfld, applyDefaults_other _ _ _ (by decide) (by decide), hs0]
            rfl
          · show p.fields PKey.max_y_axis = ns2 Flag.max_y_axis
            rw [hfld, applyDefaults_other _ _ _ (by decide) (by decide), hs0]
            rfl
          · show p.fields PKey.n_days = ns2 Flag.n_days
            rw [hfld, applyDefaults_other _ _ _ (by decide) (by decide), hs0]
            rfl
          · show p.fields PKey.recovered = ns2 Flag.recovered
            rw [hfld, applyDefaults_other _ _ _ (by decide) (by decide), hs0]
            rfl
          · show p.fields PKey.relative_contact_rate = ns2 Flag.relative_contact_rate
            rw [hfld, applyDefaults_other _ _ _ (by decide) (by decide), hs0]
            rfl
          · show p.fields PKey.hospitalized
              = .vDisp (ns2 Flag.hospitalized_days) (ns2 Flag.hospitalized_rate)
            rw [hfld, applyDefaults_other _ _ _ (by decide) (by decide), hs0]
            rfl
          · show p.fields PKey.icu = .vDisp (ns2 Flag.icu_days) (ns2 Flag.icu_rate)
            rw [hfld, applyDefaults_other _ _ _ (by decide) (by decide), hs0]
            rfl
          · show p.fields PKey.ventilated
              = .vDisp (ns2 Flag.ventilated_days) (ns2 Flag.ventilated_rate)
            rw [hfld, applyDefaults_other _ _ _ (by decide) (by decide), hs0]
            rfl
          · intro hne
            show p.fields PKey.current_date = ns2 Flag.current_date
            have hcur : s0 PKey.current_date = ns2 Flag.current_date := by
              rw [hs0]
              rfl
            rw [hfld, applyDefaults_cur, hcur, if_neg hne]
          · intro hne
            show p.fields PKey.mitigation_date = ns2 Flag.mitigation_date
            have hmit : s0 PKey.mitigation_date = ns2 Flag.mitigation_date := by
              rw [hs0]
              rfl
            rw [hfld, applyDefaults_mit, hmit, if_neg hne]

/-- C2 witness: with the C1 vector plus `--parameters p.txt` and a file
holding `--population 2000`, the merged namespace takes the file's
population and the final object carries it. -/
theorem claim_c2_witness :
    mergedNamespace none c2Files c2Argv Flag.population
        = nsOf (parseArgs (tokenize "--population 2000") emptyNs) Flag.population
    ∧ fieldOf (Parameters.create none c2Files c2Argv today0) PKey.population
        = mergedNamespace none c2Files c2Argv Flag.population := by
  have h := claim_c2_file_overrides_cli none c2Files c2Argv today0 "p.txt" "--population 2000"
    (by decide) (by decide) (by decide) (by decide)
  exact ⟨(h.2.1 Flag.population).1 (by decide), (h.2.2 (by decide)).1⟩

end PennChime
